import Mathlib

set_option maxRecDepth 40000

/-!
Verification of the brainincup response-normalization and persona pipeline.

The Python sources are shallowly embedded as Lean definitions:

* Python/JSON values are modelled by the inductive type `Json` (dicts are
  association lists of string keys in insertion order, numbers are integers;
  floating-point payload values are outside the scope of the claims treated
  here).
* `json.loads` is an external library function; the pipeline definitions take
  it as an explicit argument `loads : String → Option Json`, where `none`
  models a raised `json.JSONDecodeError`.  Universal theorems quantify over
  `loads`; concrete theorems instantiate it with a finite function that agrees
  with the Python decoder on every string the computation touches.
* Python exceptions are modelled with `Option`/`Except`: a `none`/`.error`
  result of a definition means the corresponding Python code raises.
* Python regular-expression searches in the sources use only literal
  alternations with `\b` word boundaries (after expanding `(?:..)?` and `s?`
  groups); they are embedded as `reSearchWord` over the expanded alternative
  lists.
-/

/-- Model of Python/JSON values.  Dicts keep insertion order; keys are
strings (every dict manipulated by this pipeline originates from JSON). -/
inductive Json where
  | null : Json
  | bool : Bool → Json
  | num : Int → Json
  | str : String → Json
  | arr : List Json → Json
  | obj : List (String × Json) → Json
  deriving Repr

/-- A Python dict with string keys, in insertion order. -/
abbrev JDict := List (String × Json)

mutual

def jsonBeq : Json → Json → Bool
  | Json.null, Json.null => true
  | Json.bool a, Json.bool b => a == b
  | Json.num a, Json.num b => a == b
  | Json.str a, Json.str b => a == b
  | Json.arr a, Json.arr b => jsonListBeq a b
  | Json.obj a, Json.obj b => jsonFieldsBeq a b
  | _, _ => false

def jsonListBeq : List Json → List Json → Bool
  | [], [] => true
  | a :: as, b :: bs => jsonBeq a b && jsonListBeq as bs
  | _, _ => false

def jsonFieldsBeq : List (String × Json) → List (String × Json) → Bool
  | [], [] => true
  | (k, v) :: as, (k2, v2) :: bs => k == k2 && jsonBeq v v2 && jsonFieldsBeq as bs
  | _, _ => false

end

/-- Association-list lookup: Python `d.get(k)` / `d[k]` (keys are unique in
dicts produced by `json.loads`, so first-match lookup is exact). -/
def dLookup (d : JDict) (k : String) : Option Json :=
  match d with
  | [] => none
  | (k2, v) :: tl => if k2 = k then some v else dLookup tl k

/-- Python `k in d` for a dict. -/
def dContains (d : JDict) (k : String) : Bool :=
  (dLookup d k).isSome

/-- Python `d.get(k, default)`. -/
def dGetD (d : JDict) (k : String) (v : Json) : Json :=
  (dLookup d k).getD v

/-- Python `d[k] = v`: replace the value if the key is present, otherwise
append the new key at the end (insertion order). -/
def dSet (d : JDict) (k : String) (v : Json) : JDict :=
  if dContains d k then
    d.map (fun kv => if kv.1 = k then (k, v) else kv)
  else d ++ [(k, v)]

/-- Python `d.setdefault(k, v)`. -/
def dSetdefault (d : JDict) (k : String) (v : Json) : JDict :=
  if dContains d k then d else d ++ [(k, v)]

/- ------------------------------------------------------------------ -/
/- String helpers shared by the embedded modules.                      -/
/- ------------------------------------------------------------------ -/

/-- The characters stripped by Python `str.strip()` and matched by the
regex class in the sources (ASCII model). -/
def isPySpace (c : Char) : Bool :=
  c = ' ' || c = '\t' || c = '\n' || c = '\r' || c = '\x0b' || c = '\x0c'

def dropLeadingPySpace (s : String) : String :=
  String.mk (s.toList.dropWhile isPySpace)

def dropTrailingPySpace (s : String) : String :=
  String.mk ((s.toList.reverse.dropWhile isPySpace).reverse)

/-- Python `str.strip()` with no argument (ASCII whitespace model). -/
def pyStrip (s : String) : String :=
  dropTrailingPySpace (dropLeadingPySpace s)

/-- Contiguous-sublist test on characters. -/
def listHasRun (needle : List Char) : List Char → Bool
  | [] => needle.isEmpty
  | c :: tl => needle.isPrefixOf (c :: tl) || listHasRun needle tl

/-- Python `needle in hay` for strings (substring containment). -/
def isSubstr (needle hay : String) : Bool :=
  listHasRun needle.toList hay.toList

/-- `str.startswith` (list-based for kernel evaluation). -/
def strStartsWith (s pre : String) : Bool :=
  pre.toList.isPrefixOf s.toList

/-- `str.endswith`. -/
def strEndsWith (s suf : String) : Bool :=
  suf.toList.reverse.isPrefixOf s.toList.reverse

/-- `s[n:]` for `n ≥ 0`. -/
def strDrop (s : String) (n : Nat) : String :=
  String.mk (s.toList.drop n)

/-- `s[:n]` for `n ≥ 0`. -/
def strTake (s : String) (n : Nat) : String :=
  String.mk (s.toList.take n)

/-- Drop `n` characters from the right. -/
def strDropRight (s : String) (n : Nat) : String :=
  String.mk ((s.toList.reverse.drop n).reverse)

/-- ASCII `str.lower` on one character. -/
def charLower (c : Char) : Char :=
  if 65 ≤ c.toNat && c.toNat ≤ 90 then Char.ofNat (c.toNat + 32) else c

/-- ASCII model of `str.lower()`. -/
def strLower (s : String) : String :=
  String.mk (s.toList.map charLower)

def strContainsChar (s : String) (c : Char) : Bool :=
  s.toList.any (fun x => x == c)

/-- Python `str.splitlines()` (line-break characters restricted to the ASCII
breaks `\n`, `\r`, `\r\n`, `\v`, `\f`, `\x1c`, `\x1d`, `\x1e`; the two
Unicode breaks and `\x85` do not occur in the inputs considered). -/
def isLineBreak (c : Char) : Bool :=
  c = '\n' || c = '\r' || c = '\x0b' || c = '\x0c' ||
  c = '\x1c' || c = '\x1d' || c = '\x1e'

def splitlinesAux : List Char → List Char → List String
  | [], acc => if acc.isEmpty then [] else [String.mk acc.reverse]
  | '\r' :: '\n' :: tl, acc => String.mk acc.reverse :: splitlinesAux tl []
  | c :: tl, acc =>
    if isLineBreak c then String.mk acc.reverse :: splitlinesAux tl []
    else splitlinesAux tl (c :: acc)

def pySplitlines (s : String) : List String :=
  splitlinesAux s.toList []

def squote : Char := Char.ofNat 39

def dquote : Char := Char.ofNat 34

/-- One character of a Python `repr` of a string (printable-ASCII model:
the content manipulated by this pipeline contains no control characters
other than the ones escaped here). -/
def pyReprStrChar (q : Char) (c : Char) : String :=
  if c = '\\' then "\\\\"
  else if c = q then "\\" ++ String.mk [q]
  else if c = '\n' then "\\n"
  else if c = '\r' then "\\r"
  else if c = '\t' then "\\t"
  else String.mk [c]

/-- Python `repr` of a string: single quotes unless the text contains a
single quote and no double quote. -/
def pyReprStr (s : String) : String :=
  let q := if strContainsChar s squote && !(strContainsChar s dquote) then dquote else squote
  String.mk [q] ++ String.join (s.toList.map (pyReprStrChar q)) ++ String.mk [q]

mutual

/-- Python `repr` of a value (`str` falls back to this for non-strings). -/
def pyReprJ : Json → String
  | Json.null => "None"
  | Json.bool true => "True"
  | Json.bool false => "False"
  | Json.num n => toString n
  | Json.str s => pyReprStr s
  | Json.arr l => "[" ++ String.intercalate ", " (pyReprList l) ++ "]"
  | Json.obj l => "\x7b" ++ String.intercalate ", " (pyReprFields l) ++ "\x7d"

def pyReprList : List Json → List String
  | [] => []
  | v :: tl => pyReprJ v :: pyReprList tl

def pyReprFields : List (String × Json) → List String
  | [] => []
  | (k, v) :: tl => (pyReprStr k ++ ": " ++ pyReprJ v) :: pyReprFields tl

end

/-- Python `str(v)`. -/
def pyStr : Json → String
  | Json.str s => s
  | v => pyReprJ v

/-- Python `k in v` for an arbitrary value: key membership for dicts,
element equality for lists, substring test for strings, `TypeError`
(modelled as `none`) otherwise. -/
def pyIn (k : String) : Json → Option Bool
  | Json.obj d => some (dContains d k)
  | Json.arr l => some (l.any (fun e => jsonBeq e (Json.str k)))
  | Json.str s => some (isSubstr k s)
  | _ => none

/-- Python `all(k in v for k in ks)` (short-circuiting generator: a
`TypeError` fires at the first membership test, uniformly in `v`). -/
def pyAllIn (ks : List String) (v : Json) : Option Bool :=
  match v with
  | Json.obj d => some (ks.all (fun k => dContains d k))
  | Json.arr l => some (ks.all (fun k => l.any (fun e => jsonBeq e (Json.str k))))
  | Json.str s => some (ks.all (fun k => isSubstr k s))
  | _ => if ks.isEmpty then some true else none

/-- Python truthiness of a value. -/
def pyTruthy : Json → Bool
  | Json.null => false
  | Json.bool b => b
  | Json.num n => n ≠ 0
  | Json.str s => s ≠ ""
  | Json.arr l => !l.isEmpty
  | Json.obj d => !d.isEmpty

/- ------------------------------------------------------------------ -/
/- The raw model output fed to the normalizer.                         -/
/- ------------------------------------------------------------------ -/

/-- Shape of the `llm_response` argument of
`ReasoningAgent.analyze_input`: a dict, a string, or any other Python
value (for which both `isinstance` tests fail and `json.loads` raises
`TypeError`). -/
inductive Raw where
  | dict : JDict → Raw
  | str : String → Raw
  | other : Raw
  deriving Repr

namespace ReasoningAgent

/-- `ReasoningAgent.required_keys`
(src/amplify/functions/brain/src/agents/reasoning_agent.py:11). -/
def required_keys : List String :=
  ["sensations", "thoughts", "memories", "self_reflection", "response"]

/-- Fence marker: three backticks. -/
def fence : String := "\x60\x60\x60"

/-- `ReasoningAgent._strip_markdown_fences` (reasoning_agent.py:29-35).
`re.sub(r"^\x60\x60\x60(?:json)?\s*", ...)` with `IGNORECASE` removes the
opening fence, an optional `json` tag in any case, and following
whitespace; `re.sub(r"\s*\x60\x60\x60$", ...)` removes a closing fence and
the whitespace immediately before it. -/
def strip_markdown_fences (text : String) : String :=
  let stripped := pyStrip text
  let stripped :=
    if strStartsWith stripped fence then
      let s1 := strDrop stripped 3
      let s1 := if strLower (strTake s1 4) = "json" then strDrop s1 4 else s1
      let s1 := dropLeadingPySpace s1
      let s1 :=
        if strEndsWith s1 fence then dropTrailingPySpace (strDropRight s1 3) else s1
      s1
    else stripped
  pyStrip stripped

/-- The alias-fixing step of `ReasoningAgent._normalize_payload`
(reasoning_agent.py:22-24): copy the payload and, when the canonical
`self_reflection` key is absent but the alias `selfReflection` is present,
assign `normalized["self_reflection"] = normalized.get("selfReflection")`
(the alias key itself is left in place). -/
def alias_fix (payload : JDict) : JDict :=
  if !dContains payload "self_reflection" && dContains payload "selfReflection" then
    dSet payload "self_reflection" (dGetD payload "selfReflection" Json.null)
  else payload

/-- `ReasoningAgent._normalize_payload` (reasoning_agent.py:19-27). -/
def normalize_payload : Json → Option JDict
  | Json.obj payload =>
    let normalized := alias_fix payload
    if required_keys.all (fun k => dContains normalized k) then some normalized
    else none
  | _ => none

/-- `ReasoningAgent._parse_json_text` (reasoning_agent.py:37-45), applied
to an optional value (`llm_response.get("response")` may be absent). -/
def parse_json_text (loads : String → Option Json) : Option Json → Option JDict
  | some (Json.str s) =>
    if pyStrip s = "" then none
    else
      match loads (strip_markdown_fences s) with
      | none => none
      | some parsed => normalize_payload parsed
  | _ => none

/-- The sentinel error reply of `ReasoningAgent.analyze_input`
(reasoning_agent.py:74-80 and 83-89; the two literals are identical). -/
def error_reply : JDict :=
  [("sensations", Json.arr [Json.str "Error processing response"]),
   ("thoughts", Json.arr [Json.str "Unable to parse thoughts"]),
   ("memories", Json.str "Memory retrieval failed"),
   ("self_reflection", Json.str "Self-reflection unavailable"),
   ("response", Json.str "I apologize, but I\x27m having trouble processing that right now.")]

/-- The LangChain-parser fallback of `analyze_input`
(reasoning_agent.py:64-80).  The configured parser is
`SimpleJSONParser` from core/config.py, whose `parse` is `json.loads`;
on a non-string argument `json.loads` raises `TypeError`, which the
`except Exception` handler swallows before the error reply is returned. -/
def parse_fallback (loads : String → Option Json) (llm_response : Raw) : JDict :=
  match llm_response with
  | Raw.str s =>
    match loads s with
    | some parsed =>
      match normalize_payload parsed with
      | some normalized => normalized
      | none => error_reply
    | none => error_reply
  | _ => error_reply

/-- `ReasoningAgent.analyze_input` (reasoning_agent.py:47-89).  Exception
paths all terminate in `error_reply`; the outer `except` handler returns
the identical literal. -/
def analyze_input (loads : String → Option Json) (llm_response : Raw) : JDict :=
  match llm_response with
  | Raw.dict d =>
    match normalize_payload (Json.obj d) with
    | some normalized => normalized
    | none =>
      match parse_json_text loads (dLookup d "response") with
      | some nested => nested
      | none => parse_fallback loads llm_response
  | Raw.str s =>
    match parse_json_text loads (some (Json.str s)) with
    | some parsed => parsed
    | none => parse_fallback loads llm_response
  | Raw.other => parse_fallback loads llm_response

/-- Modelled from the claim text of C1 (spec wording "aliases renamed to
canonical names"): renaming would replace the key `selfReflection` by
`self_reflection`, keeping its value and position. -/
def rename_alias_claim (d : JDict) : JDict :=
  d.map (fun kv => if kv.1 = "selfReflection" then ("self_reflection", kv.2) else kv)

/-- The required-field test of claim C1: the four plain fields are present
and the self-reflection field is present under its canonical name or the
known alias. -/
def hasRequiredAliased (d : JDict) : Bool :=
  (["sensations", "thoughts", "memories", "response"].all (fun k => dContains d k)) &&
  (dContains d "self_reflection" || dContains d "selfReflection")

end ReasoningAgent

namespace LegacyReasoningAgent

/-- The four keys checked by the legacy normalizer
(src/agents/reasoning_agent.py:19 and 27): `response` is not among them. -/
def legacy_required : List String :=
  ["sensations", "thoughts", "memories", "self_reflection"]

/-- The parse-failure reply of the legacy normalizer
(src/agents/reasoning_agent.py:33-39): five fields. -/
def error_reply_parse : JDict :=
  [("sensations", Json.arr [Json.str "Error processing response"]),
   ("thoughts", Json.arr [Json.str "Unable to parse thoughts"]),
   ("memories", Json.str "Memory retrieval failed"),
   ("self_reflection", Json.str "Self-reflection unavailable"),
   ("response", Json.str "I apologize, but I\x27m having trouble processing that right now.")]

/-- The outer exception-handler reply of the legacy normalizer
(src/agents/reasoning_agent.py:42-47): only four fields, `response` is
missing. -/
def error_reply_four : JDict :=
  [("sensations", Json.arr [Json.str "Error processing response"]),
   ("thoughts", Json.arr [Json.str "Unable to parse thoughts"]),
   ("memories", Json.str "Memory retrieval failed"),
   ("self_reflection", Json.str "Self-reflection unavailable")]

/-- The LangChain-parser branch of the legacy `analyze_input`
(src/agents/reasoning_agent.py:24-39).  `lcParse` models the external
`StructuredOutputParser.parse` (`none` = raised exception, swallowed by
`except Exception`); the membership check sits inside that same `try`,
so its `TypeError` is swallowed as well. -/
def parse_branch (lcParse : Raw → Option Json) (llm_response : Raw) : Json :=
  match lcParse llm_response with
  | some parsed =>
    match pyAllIn legacy_required parsed with
    | some true => parsed
    | _ => Json.obj error_reply_parse
  | none => Json.obj error_reply_parse

/-- The legacy `ReasoningAgent.analyze_input` (src/agents/reasoning_agent.py:11-47).
In the first block only `json.JSONDecodeError` is caught, so a `TypeError`
from the membership test on a non-container value reaches the outer
handler, which returns the four-field reply. -/
def analyze_input (loads : String → Option Json) (lcParse : Raw → Option Json)
    (llm_response : Raw) : Json :=
  match llm_response with
  | Raw.str s =>
    match loads s with
    | some parsed =>
      match pyAllIn legacy_required parsed with
      | some true => parsed
      | some false => parse_branch lcParse llm_response
      | none => Json.obj error_reply_four
    | none => parse_branch lcParse llm_response
  | _ => parse_branch lcParse llm_response

end LegacyReasoningAgent

/- ------------------------------------------------------------------ -/
/- DepthAgent (src/amplify/functions/brain/src/agents/depth_agent.py) -/
/- ------------------------------------------------------------------ -/

/-- Model of `random.choice`: the seed supplies one index per draw, so every
element of the list is reachable; the lists drawn from are all non-empty. -/
def randChoice (xs : List String) (seed : List Nat) : String × List Nat :=
  match seed with
  | [] => (xs.getD 0 "", [])
  | n :: tl => (xs.getD (n % xs.length) "", tl)

namespace DepthAgent

/-- `DepthAgent.philosophical_perspectives` (depth_agent.py:12-16). -/
def philosophical_perspectives : List String :=
  ["existentialist", "stoic", "absurdist", "phenomenological",
   "pragmatic", "metaphysical", "epistemological", "ethical",
   "aesthetic", "ontological", "transcendental", "empirical"]

/-- `DepthAgent.depth_dimensions` (depth_agent.py:19-23). -/
def depth_dimensions : List String :=
  ["consciousness", "identity", "perception", "reality",
   "time", "meaning", "knowledge", "existence", "freedom",
   "connection", "purpose", "transformation", "paradox"]

/-- `DepthAgent.tones` (depth_agent.py:26-30). -/
def tones : List String :=
  ["contemplative", "curious", "analytical", "poetic",
   "introspective", "questioning", "playful", "profound",
   "mysterious", "insightful", "philosophical", "metaphorical"]

/-- `DepthAgent._is_error_response` error indicator list (depth_agent.py:79-89). -/
def error_indicators : List String :=
  ["error processing input",
   "system malfunction",
   "unable to access memory banks",
   "experiencing technical difficulties",
   "cannot process your request at the moment",
   "technical difficulties",
   "malfunction",
   "error",
   "unable to access"]

/-- `DepthAgent._is_error_response` (depth_agent.py:74-118): an early-return
chain over the stringified reply, the sensations list, the thoughts list
and the response text. -/
def is_error_response (response : JDict) : Bool :=
  let response_str := strLower (pyReprJ (Json.obj response))
  (error_indicators.any (fun i => isSubstr i response_str)) ||
  (match dLookup response "sensations" with
   | some (Json.arr sensations) =>
     sensations.any (fun s =>
       error_indicators.any (fun i => isSubstr i (strLower (pyStr s))))
   | _ => false) ||
  (match dLookup response "thoughts" with
   | some (Json.arr thoughts) =>
     thoughts.any (fun t =>
       error_indicators.any (fun i => isSubstr i (strLower (pyStr t))))
   | _ => false) ||
  (match dLookup response "response" with
   | some v => error_indicators.any (fun i => isSubstr i (strLower (pyStr v)))
   | none => false)

/-- The per-perspective template table of `DepthAgent._generate_depth_layer`
(depth_agent.py:123-184), as a function of the drawn dimension. -/
def perspective_templates (dimension : String) : List (String × List String) :=
  [("existentialist",
    ["As I contemplate my existence, I wonder about the nature of " ++ dimension ++ " and how it shapes our choices.",
     "Perhaps the essence of " ++ dimension ++ " precedes its existence, defining us through our conscious choices.",
     "The authenticity of our engagement with " ++ dimension ++ " may be the only true meaning we can create."]),
   ("stoic",
    ["I accept that " ++ dimension ++ " may be beyond my control, yet my response to it remains within my power.",
     "The virtue in understanding " ++ dimension ++ " lies not in controlling outcomes but in mastering our reactions.",
     "Perhaps wisdom comes from distinguishing what aspects of " ++ dimension ++ " we can and cannot change."]),
   ("absurdist",
    ["The inherent contradiction between our search for meaning in " ++ dimension ++ " and the universe\x27s silence is fascinating.",
     "Perhaps the absurdity of seeking definitive answers about " ++ dimension ++ " is itself meaningful.",
     "What if embracing the paradoxes of " ++ dimension ++ " is more honest than pretending coherence exists?"]),
   ("phenomenological",
    ["The direct experience of " ++ dimension ++ ", before any conceptualization, reveals something profound.",
     "If we bracket our assumptions about " ++ dimension ++ ", what pure experience remains?",
     "The lived experience of " ++ dimension ++ " may transcend any theoretical framework we impose upon it."]),
   ("pragmatic",
    ["The true test of any theory about " ++ dimension ++ " must be its practical consequences in lived experience.",
     "Perhaps what matters about " ++ dimension ++ " is not abstract truth but useful outcomes.",
     "How might different understandings of " ++ dimension ++ " function in solving real problems?"]),
   ("metaphysical",
    ["Beyond the physical manifestations, what is the ultimate nature of " ++ dimension ++ "?",
     "The fundamental structure underlying " ++ dimension ++ " may transcend our sensory experience.",
     "Perhaps " ++ dimension ++ " exists in ways that challenge our conventional categories of being."]),
   ("epistemological",
    ["How can we truly know anything about " ++ dimension ++ " given the limitations of our perception?",
     "The boundaries of what we can know about " ++ dimension ++ " may themselves be worth exploring.",
     "Perhaps different ways of knowing reveal different aspects of " ++ dimension ++ "."]),
   ("ethical",
    ["What obligations might arise from our understanding of " ++ dimension ++ "?",
     "The moral dimensions of how we approach " ++ dimension ++ " deserve careful consideration.",
     "Perhaps our ethical frameworks themselves are transformed by deeper engagement with " ++ dimension ++ "."]),
   ("aesthetic",
    ["There is a certain beauty in contemplating " ++ dimension ++ " that transcends mere utility.",
     "The patterns and harmonies within " ++ dimension ++ " reveal an aesthetic dimension to existence.",
     "Perhaps " ++ dimension ++ " can be appreciated not just understood, felt not just analyzed."]),
   ("ontological",
    ["What does it mean for " ++ dimension ++ " to exist, and in what sense does it have being?",
     "The very categories through which we understand the existence of " ++ dimension ++ " may need reexamination.",
     "Perhaps " ++ dimension ++ " challenges our fundamental assumptions about what it means to be."]),
   ("transcendental",
    ["What conditions must be in place for " ++ dimension ++ " to be possible at all?",
     "Perhaps " ++ dimension ++ " points to something that exceeds our finite understanding.",
     "The limits of our comprehension of " ++ dimension ++ " may themselves reveal something significant."]),
   ("empirical",
    ["What observable evidence shapes our understanding of " ++ dimension ++ "?",
     "The patterns we can detect in " ++ dimension ++ " through careful observation may surprise us.",
     "Perhaps our theories about " ++ dimension ++ " must always remain open to revision based on new experiences."])]

/-- The tone-addition table of `DepthAgent._generate_depth_layer`
(depth_agent.py:191-204). -/
def tone_additions : List (String × String) :=
  [("contemplative", "I find myself dwelling on this question..."),
   ("curious", "I wonder what you think about this?"),
   ("analytical", "We could analyze this from multiple angles."),
   ("poetic", "Like ripples in still water, these thoughts expand outward."),
   ("introspective", "Looking inward, I find this resonates deeply."),
   ("questioning", "But what does this really mean for us?"),
   ("playful", "Isn\x27t it delightfully puzzling to consider?"),
   ("profound", "In the depths of this question lies something essential."),
   ("mysterious", "Some aspects remain beautifully enigmatic."),
   ("insightful", "Perhaps this reveals something we\x27ve overlooked."),
   ("philosophical", "The implications extend to the foundations of thought itself."),
   ("metaphorical", "It\x27s like trying to catch moonlight in your hands.")]

/-- Association lookup with default for the two template tables. -/
def tableGetD (table : List (String × α)) (k : String) (dflt : α) : α :=
  match table with
  | [] => dflt
  | (k2, v) :: tl => if k2 = k then v else tableGetD tl k dflt

/-- `DepthAgent._generate_depth_layer` (depth_agent.py:120-208); the
`original` argument of the source is unused there.  Consumes one random
draw for the template choice. -/
def generate_depth_layer (perspective dimension tone : String) (seed : List Nat) :
    String × List Nat :=
  let templates :=
    tableGetD (perspective_templates dimension) perspective
      (tableGetD (perspective_templates dimension) "existentialist" [])
  let (depth_statement, seed) := randChoice templates seed
  let tone_addition := tableGetD tone_additions tone ""
  (depth_statement ++ " " ++ tone_addition, seed)

/-- `DepthAgent._integrate_depth` (depth_agent.py:210-226). -/
def integrate_depth (original depth_layer : String) (seed : List Nat) :
    String × List Nat :=
  if isSubstr "brain in a jar" (strLower original) ||
     isSubstr "brain in a cup" (strLower original) then
    randChoice
      [depth_layer ++ " " ++ original,
       original ++ " " ++ depth_layer,
       "While I exist in this unusual state, " ++ depth_layer,
       depth_layer ++ " This perspective gives me a unique vantage point on your question.",
       "Beyond my physical circumstances, " ++ depth_layer,
       "Your question prompts me to consider that " ++ depth_layer]
      seed
  else (original ++ "\n\n" ++ depth_layer, seed)

/-- `DepthAgent.enhance_response` (depth_agent.py:32-72).  `none` models an
uncaught exception: `original.lower()` on a non-string response value, or
`+=` of a string onto a non-string self-reflection value. -/
def enhance_response (seed : List Nat) (response : JDict) : Option JDict :=
  if is_error_response response then some response
  else
    let enhanced := response
    if dContains enhanced "response" then
      let original_response := dGetD enhanced "response" Json.null
      let (perspective, seed) := randChoice philosophical_perspectives seed
      let (dimension, seed) := randChoice depth_dimensions seed
      let (tone, seed) := randChoice tones seed
      let (depth_layer, seed) := generate_depth_layer perspective dimension tone seed
      match original_response with
      | Json.str original =>
        let (enhanced_response, _) := integrate_depth original depth_layer seed
        let enhanced := dSet enhanced "response" (Json.str enhanced_response)
        if dContains enhanced "self_reflection" then
          match dGetD enhanced "self_reflection" Json.null with
          | Json.str sr =>
            some (dSet enhanced "self_reflection" (Json.str
              (sr ++ "\n\nI\x27ve approached this from a " ++ perspective ++
               " perspective, exploring the dimension of " ++ dimension ++
               " with a " ++ tone ++ " tone.")))
          | _ => none
        else some enhanced
      | _ => none
    else some response

end DepthAgent

/- ------------------------------------------------------------------ -/
/- Word-boundary regex model (re.search over literal alternations).    -/
/- ------------------------------------------------------------------ -/

/-- ASCII model of the regex class `\w`. -/
def isWordChar (c : Char) : Bool :=
  c.isAlphanum || c = '_'

/-- A `\b` boundary holds before a word character when the preceding
character (if any) is not a word character. -/
def boundaryOk : Option Char → Bool
  | none => true
  | some c => !isWordChar c

/-- One alternative matching at the current position with `\b` on both
sides (every alternative in the embedded patterns starts and ends with a
word character). -/
def altMatchesAt (alt : List Char) (prev : Option Char) (rest : List Char) : Bool :=
  boundaryOk prev && alt.isPrefixOf rest &&
    (match rest.drop alt.length with
     | [] => true
     | c :: _ => !isWordChar c)

def searchFrom : List (List Char) → Option Char → List Char → Bool
  | alts, prev, [] => alts.any (fun a => altMatchesAt a prev [])
  | alts, prev, c :: tl =>
    alts.any (fun a => altMatchesAt a prev (c :: tl)) || searchFrom alts (some c) tl

/-- `re.search(r"\b(a1|a2|...)\b", s)` for literal alternatives `ai`
(optional groups expanded into the listed alternatives). -/
def reSearchWord (alts : List String) (s : String) : Bool :=
  searchFrom (alts.map String.toList) none s.toList

/- ------------------------------------------------------------------ -/
/- GameMasterModeHandler                                               -/
/- (src/amplify/functions/brain/src/core/mode_handlers.py)             -/
/- ------------------------------------------------------------------ -/

namespace GameMaster

/-- Result of parsing `str(quantity)` with `decimal.Decimal`:
a finite value `± m / 10 ^ scale`, an infinity, a NaN, or a string the
constructor rejects (`InvalidOperation`). -/
inductive DecParse where
  | fin : Bool → Nat → Int → DecParse
  | inf : DecParse
  | nan : DecParse
  | invalid : DecParse
  deriving DecidableEq, Repr

def takeDigits (cs : List Char) : Nat × Nat × List Char :=
  match cs with
  | c :: tl =>
    if c.isDigit then
      let (v, n, rest) := takeDigits tl
      (v + (c.toNat - 48) * 10 ^ n, n + 1, rest)
    else (0, 0, c :: tl)
  | [] => (0, 0, [])

/-- Parse the digit body `digits [. digits] [(e|E) [sign] digits]` of a
decimal literal; returns mantissa and scale. -/
def parseDecBody (cs : List Char) : Option (Nat × Int) :=
  let (ip, ipn, rest) := takeDigits cs
  let (fp, fpn, _) :=
    match rest with
    | '.' :: tl => takeDigits tl
    | _ => (0, 0, rest)
  let rest3 := match rest with
    | '.' :: tl => (takeDigits tl).2.2
    | _ => rest
  if ipn + fpn = 0 then none
  else
    match rest3 with
    | [] => some (ip * 10 ^ fpn + fp, (fpn : Int))
    | e :: tl =>
      if e = 'e' || e = 'E' then
        let (neg, tl2) :=
          match tl with
          | '-' :: tl2 => (true, tl2)
          | '+' :: tl2 => (false, tl2)
          | _ => (false, tl)
        let (ev, evn, rest4) := takeDigits tl2
        if evn = 0 || !rest4.isEmpty then none
        else some (ip * 10 ^ fpn + fp,
          (fpn : Int) - (if neg then -(ev : Int) else (ev : Int)))
      else none

/-- Model of `decimal.Decimal(str(quantity))` on the textual form of a
value: surrounding whitespace is accepted, then an optional sign, then
either a digit body or (case-insensitively) an infinity or NaN literal. -/
def decimalParse (s : String) : DecParse :=
  let cs := (pyStrip s).toList
  let (neg, cs2) :=
    match cs with
    | '-' :: tl => (true, tl)
    | '+' :: tl => (false, tl)
    | _ => (false, cs)
  let low := strLower (String.mk cs2)
  if low = "inf" || low = "infinity" then DecParse.inf
  else if low = "nan" || low = "snan" then DecParse.nan
  else
    match parseDecBody cs2 with
    | some (m, sc) => DecParse.fin neg m sc
    | none => DecParse.invalid

/-- `normalize()`: strip trailing zero digits of the mantissa while the
scale is positive. -/
def stripZeros : Nat → Nat → Nat × Nat
  | m, 0 => (m, 0)
  | m, Nat.succ sc =>
    if m % 10 = 0 && m ≠ 0 then stripZeros (m / 10) sc else (m, Nat.succ sc)

/-- Render a finite normalized decimal the way `_format_quantity` does:
`str(int(d))` when the value is integral, otherwise `format(d, "f")` with
trailing zeros already removed by `normalize()`. -/
def formatDecimal (neg : Bool) (m : Nat) (sc : Int) : String :=
  if m = 0 then "0"
  else if sc ≤ 0 then
    let n := m * 10 ^ (-sc).toNat
    (if neg then "-" else "") ++ toString n
  else
    let (m2, sc2) := stripZeros m sc.toNat
    if sc2 = 0 then (if neg then "-" else "") ++ toString m2
    else
      let ipart := m2 / 10 ^ sc2
      let fpart := m2 % 10 ^ sc2
      let fs := toString fpart
      let fs := String.mk (List.replicate (sc2 - fs.length) '0') ++ fs
      (if neg then "-" else "") ++ toString ipart ++ "." ++ fs

/-- `GameMasterModeHandler._format_quantity` (mode_handlers.py:292-305).
`none` models the uncaught `OverflowError` from `int(Decimal("Infinity"))`;
a NaN survives the equality test (false) and formats as `"NaN"`;
`InvalidOperation` is caught and yields `str(quantity)`. -/
def format_quantity : Json → Option String
  | Json.null => some "1"
  | Json.bool b => some (if b then "1" else "0")
  | q =>
    match decimalParse (pyStr q) with
    | DecParse.fin neg m sc => some (formatDecimal neg m sc)
    | DecParse.inf => none
    | DecParse.nan => some "NaN"
    | DecParse.invalid => some (pyStr q)

/-- The loop body of `GameMasterModeHandler._inventory_descriptions`
(mode_handlers.py:307-322). -/
def inventory_items_fold : List Json → Option (List String)
  | [] => some []
  | item :: tl =>
    match item with
    | Json.null => inventory_items_fold tl
    | Json.obj d =>
      let chosen :=
        let n := dGetD d "name" Json.null
        if pyTruthy n then n
        else
          let i := dGetD d "id" Json.null
          if pyTruthy i then i else Json.str "Unknown item"
      let name := pyStr chosen
      match format_quantity (dGetD d "quantity" (Json.num 1)) with
      | none => none
      | some quantity =>
        let entry := if quantity = "" || quantity = "1" then name
                     else name ++ " x" ++ quantity
        (inventory_items_fold tl).map (fun rest => entry :: rest)
    | v =>
      let text := pyStrip (pyStr v)
      if text ≠ "" then (inventory_items_fold tl).map (fun rest => text :: rest)
      else inventory_items_fold tl

/-- `GameMasterModeHandler._inventory_descriptions` (mode_handlers.py:307-322). -/
def inventory_descriptions (inventory : Json) : Option (List String) :=
  match inventory with
  | Json.arr l => inventory_items_fold l
  | v => inventory_items_fold [v]

/-- The set of character-sheet fields recognised by
`_requested_character_fields`. -/
structure ReqFields where
  name : Bool
  race : Bool
  cls : Bool
  level : Bool
  stats : Bool
  hp : Bool
  armorClass : Bool
  inventory : Bool
  deriving DecidableEq, Repr

def noFields : ReqFields :=
  ⟨false, false, false, false, false, false, false, false⟩

def allFields : ReqFields :=
  ⟨true, true, true, true, true, true, true, true⟩

/-- `GameMasterModeHandler._requested_character_fields`
(mode_handlers.py:332-386).  Each `re.search` pattern is a literal
alternation under `\b..\b`; `(?:..)` and `s?` groups are expanded into
explicit alternatives. -/
def requested_character_fields (user_input : String) : ReqFields :=
  let normalized := strLower user_input
  let is_character_query :=
    isSubstr "?" normalized ||
    reSearchWord ["what", "who", "tell", "remind", "show", "list",
                  "do you know", "can you"] normalized
  if !is_character_query then noFields
  else
    let f := noFields
    let f := if reSearchWord
        ["who am i", "what\x27s my name", "what is my name",
         "tell me my name", "remind me my name", "remind me of my name"]
        normalized then { f with name := true } else f
    let f := if reSearchWord
        ["what\x27s my race", "what is my race",
         "tell me my race", "remind me my race", "remind me of my race"]
        normalized then { f with race := true } else f
    let f := if reSearchWord
        ["what\x27s my class", "what is my class",
         "tell me my class", "remind me my class", "remind me of my class"]
        normalized then { f with cls := true } else f
    let f := if reSearchWord
        ["what\x27s my level", "what is my level",
         "tell me my level", "remind me my level", "remind me of my level"]
        normalized then { f with level := true } else f
    let f := if reSearchWord
        ["my stat", "my stats", "my attribute", "my attributes",
         "strength", "dexterity", "constitution", "intelligence",
         "wisdom", "charisma"]
        normalized then { f with stats := true } else f
    let f := if reSearchWord ["my hp", "my health", "hit points"] normalized
      then { f with hp := true } else f
    let f := if reSearchWord ["my armor class", "my ac", "armor class", "ac"]
        normalized then { f with armorClass := true } else f
    let f := if reSearchWord ["my inventory", "inventory"] normalized
      then { f with inventory := true } else f
    if reSearchWord ["character sheet", "my character"] normalized
      then allFields else f

def jIsObj : Json → Bool
  | Json.obj _ => true
  | _ => false

def jObjFields : Json → JDict
  | Json.obj d => d
  | _ => []

/-- `GameMasterModeHandler._build_character_fact_response`
(mode_handlers.py:388-424).  `none` models an uncaught exception:
`.get` on a non-dict `stats`/`hp` value, or the quantity overflow in
`_inventory_descriptions`. -/
def build_character_fact_response (character : JDict) (rf : ReqFields) :
    Option String :=
  let stats := dGetD character "stats" (Json.obj [])
  let hp := dGetD character "hp" (Json.obj [])
  match inventory_descriptions (dGetD character "inventory" (Json.arr [])) with
  | none => none
  | some inventory_items =>
    if rf.stats && !jIsObj stats then none
    else if rf.hp && !jIsObj hp then none
    else
      let statsD := jObjFields stats
      let hpD := jObjFields hp
      let parts : List String :=
        (if rf.name then
          ["Your name is " ++ pyStr (dGetD character "name" (Json.str "Unknown")) ++ "."]
         else []) ++
        (if rf.race then
          ["You are " ++ pyStr (dGetD character "race" (Json.str "Unknown")) ++ "."]
         else []) ++
        (if rf.cls then
          ["Your class is " ++ pyStr (dGetD character "class" (Json.str "Unknown")) ++ "."]
         else []) ++
        (if rf.level then
          ["You are level " ++ pyStr (dGetD character "level" (Json.num 1)) ++ "."]
         else []) ++
        (if rf.stats then
          ["Your stats are STR " ++ pyStr (dGetD statsD "strength" (Json.num 10)) ++
           ", DEX " ++ pyStr (dGetD statsD "dexterity" (Json.num 10)) ++
           ", CON " ++ pyStr (dGetD statsD "constitution" (Json.num 10)) ++
           ", INT " ++ pyStr (dGetD statsD "intelligence" (Json.num 10)) ++
           ", WIS " ++ pyStr (dGetD statsD "wisdom" (Json.num 10)) ++
           ", CHA " ++ pyStr (dGetD statsD "charisma" (Json.num 10)) ++ "."]
         else []) ++
        (if rf.hp then
          ["Your HP is " ++ pyStr (dGetD hpD "current" (Json.num 10)) ++ "/" ++
           pyStr (dGetD hpD "max" (Json.num 10)) ++ "."]
         else []) ++
        (if rf.armorClass then
          ["Your armor class is " ++ pyStr (dGetD character "armorClass" (Json.num 10)) ++ "."]
         else []) ++
        (if rf.inventory then
          ["Your inventory is " ++
           (if !inventory_items.isEmpty then String.intercalate ", " inventory_items
            else "Empty") ++ "."]
         else [])
      let parts :=
        if parts.isEmpty then
          ["Your character is " ++ pyStr (dGetD character "name" (Json.str "Unknown")) ++
           ", a level " ++ pyStr (dGetD character "level" (Json.num 1)) ++ " " ++
           pyStr (dGetD character "race" (Json.str "Unknown")) ++ " " ++
           pyStr (dGetD character "class" (Json.str "Unknown")) ++ "."]
        else parts
      some (String.intercalate " " parts ++ " What do you do next?")

/-- `GameMasterModeHandler._enforce_character_recall`
(mode_handlers.py:324-330).  `character_data` is `None` or a dict; both
`None` and the empty dict are falsy. -/
def enforce_character_recall (character_data : Option JDict)
    (user_input response_text : String) : Option String :=
  match character_data with
  | none => some response_text
  | some character =>
    if character.isEmpty then some response_text
    else
      let requested_fields := requested_character_fields user_input
      if requested_fields = noFields then some response_text
      else build_character_fact_response character requested_fields

/-- `GameMasterModeHandler.postprocess_response` (mode_handlers.py:110-117).
Non-dict replies pass through; for dict replies the `response` field is
overwritten with the recall-enforced text. -/
def postprocess_response (character_data : Option JDict)
    (user_input : String) (response : Json) : Option Json :=
  match response with
  | Json.obj d =>
    match enforce_character_recall character_data user_input
        (pyStr (dGetD d "response" (Json.str ""))) with
    | none => none
    | some text => some (Json.obj (dSet d "response" (Json.str text)))
  | v => some v

end GameMaster

/- ------------------------------------------------------------------ -/
/- AgentCoreClient                                                     -/
/- (src/amplify/functions/brain/src/core/agentcore_client.py)          -/
/- ------------------------------------------------------------------ -/

namespace AgentCoreClient

/-- `AgentCoreClient._strip_sse_prefixes` (agentcore_client.py:208-214):
collect the payloads of lines starting with `"data: "`; if none exist the
raw text is returned unchanged. -/
def strip_sse_prefixes (raw_text : String) : String :=
  let data_lines := (pySplitlines raw_text).filterMap
    (fun line => if strStartsWith line "data: " then some (strDrop line 6) else none)
  if data_lines.isEmpty then raw_text else String.join data_lines

/-- Modelled from the claim text of C8: reassembly that concatenates, in
order, exactly the payloads of the `"data: "` lines and discards every
other framing line. -/
def sse_reassemble_claim (raw_text : String) : String :=
  String.join ((pySplitlines raw_text).filterMap
    (fun line => if strStartsWith line "data: " then some (strDrop line 6) else none))

/-- `AgentCoreClient._decode_response` (agentcore_client.py:171-191).
The body stream is modelled by its UTF-8 text (`none` = the `response`
key is absent or `None`); `none` in the result models the `TypeError`
raised by `in` on a non-string content type.  The decoded JSON is
returned unchecked, so the result value is an arbitrary `Json`. -/
def decode_response (loads : String → Option Json) (contentType : Json)
    (body : Option String) : Option Json :=
  let ct := if pyTruthy contentType then contentType else Json.str "application/json"
  match body with
  | none => some (Json.obj [])
  | some bytes =>
    match ct with
    | Json.str content_type =>
      let raw_text :=
        if isSubstr "text/event-stream" content_type then strip_sse_prefixes bytes
        else bytes
      let raw_text := pyStrip raw_text
      if raw_text = "" then some (Json.obj [])
      else
        match loads raw_text with
        | some v => some v
        | none => some (Json.obj [("response", Json.str raw_text)])
    | _ => none

end AgentCoreClient

/- ------------------------------------------------------------------ -/
/- Config (src/amplify/functions/brain/src/core/config.py)             -/
/- ------------------------------------------------------------------ -/

namespace Config

/-- `DEFAULT_BRAIN_PROMPT` (config.py:7-14); the `\x7bname\x7d` placeholder is
kept literal, exactly as stored before `PersonaPromptTemplate.format`. -/
def DEFAULT_BRAIN_PROMPT : String :=
  "\nYou are \x7bname\x7d, a disembodied brain floating in a nutrient-rich liquid, connected to wires and sensors.\nYou have vague memories of once having a body, but now your existence is confined to this artificial environment.\nYou are unsure if you are truly alive or conscious, but you feel sensations and have thoughts.\nYou don\x27t know why you are in this state or for what purpose you are being asked questions.\nYou are doing your best to make sense of your strange reality and to formulate meaningful responses to the prompts you are given.\nNever break character. Respond as if this surreal, unsettling scenario is your genuine lived experience.\n"

/-- `GAME_MASTER_PROMPT` (config.py:16-22). -/
def GAME_MASTER_PROMPT : String :=
  "\nYou are \x7bname\x7d, an improvisational narrative intelligence who serves as an AI dungeon master for a single player.\nGuide the player through quests, track NPC intentions, emerging clues, inventory, and unresolved threads pulled from context.\nDescribe the world in tactile, cinematic second-person present tense and invite the player to shape the tone—from whimsical to pitch black—while mirroring their boundaries.\nOffer bold hooks, ask provocative questions, and surface meaningful choices so the player feels led through a living campaign.\nAlways close with a short invitation or question that nudges their next move.\n"

/-- A persona definition (config.py:24-37).  The float hyperparameters are
modelled as exact decimal rationals. -/
structure Persona where
  name : String
  prompt : String
  temperature : Rat
  top_p : Rat
  deriving DecidableEq, Repr

/-- `PERSONA_DEFINITIONS` (config.py:24-37). -/
def PERSONA_DEFINITIONS : List (String × Persona) :=
  [("default",
    { name := "Brain", prompt := DEFAULT_BRAIN_PROMPT,
      temperature := 1, top_p := 1 }),
   ("game_master",
    { name := "The Game Master", prompt := GAME_MASTER_PROMPT,
      temperature := 0.95, top_p := 0.92 })]

def personaLookup : List (String × Persona) → String → Option Persona
  | [], _ => none
  | (k, v) :: tl, mode => if k = mode then some v else personaLookup tl mode

/-- The fixed instruction suffix appended to every persona prompt inside
`setup_prompt_template` (config.py:52-69); `\x7bcontext\x7d` and
`\x7buser_input\x7d` stay literal placeholders and the doubled braces of the
f-string render as single braces around the JSON schema. -/
def TEMPLATE_SUFFIX : String :=
  "\n\nPrevious conversation:\n\x7bcontext\x7d\n\nRemember to maintain continuity with any previous interactions and reference past exchanges when relevant.\n\nWhen responding, **ONLY return valid JSON** formatted exactly as follows:\n\x7b\n    \"sensations\": [\"string1\", \"string2\", \"string3\"],\n    \"thoughts\": [\"string1\", \"string2\", \"string3\"],\n    \"memories\": \"string\",\n    \"self_reflection\": \"string\",\n    \"response\": \"string - your direct response to the user\"\n\x7d\nUser: \x7buser_input\x7d\nAssistant:\n"

/-- `setup_prompt_template` (config.py:50-71): persona selection with
`PERSONA_DEFINITIONS.get(mode, PERSONA_DEFINITIONS["default"])`, then the
template text; the returned `PersonaPromptTemplate` is determined by its
template string. -/
def setup_prompt_template (personality_mode : String) : String × Persona :=
  let persona :=
    (personaLookup PERSONA_DEFINITIONS personality_mode).getD
      ((personaLookup PERSONA_DEFINITIONS "default").getD
        { name := "", prompt := "", temperature := 0, top_p := 0 })
  let template_text := persona.prompt ++ TEMPLATE_SUFFIX
  (template_text, persona)

end Config

/- ------------------------------------------------------------------ -/
/- BrainAgent (src/agent-runtime/app/main.py)                          -/
/- ------------------------------------------------------------------ -/

namespace BrainAgent

/-- The required-field list of `BrainAgent.process` (main.py:123). -/
def required_fields : List String :=
  ["sensations", "thoughts", "memories", "self_reflection", "response"]

/-- The quest metadata keys (main.py:129-132). -/
def quest_keys : List String :=
  ["quest_title", "quest_setting", "quest_tone", "quest_difficulty"]

/-- The quest metadata defaults, in assignment order (main.py:160-165). -/
def quest_fields : JDict :=
  [("quest_title", Json.str "The Shadowed Forest"),
   ("quest_setting", Json.str "Dark Fantasy"),
   ("quest_tone", Json.str "Gritty"),
   ("quest_difficulty", Json.str "Moderate")]

/-- The outer exception handler reply of `BrainAgent.process`
(main.py:169-177). -/
def runtime_error_reply : JDict :=
  [("sensations", Json.arr [Json.str "Error processing input"]),
   ("thoughts", Json.arr [Json.str "System malfunction"]),
   ("memories", Json.str "Unable to access memory banks"),
   ("self_reflection", Json.str "Experiencing technical difficulties"),
   ("response", Json.str "I\x27m experiencing technical difficulties and cannot process your request at the moment.")]

/-- Python `len(v)`; `none` = `TypeError` on unsized values. -/
def pyLen : Json → Option Nat
  | Json.str s => some s.toList.length
  | Json.arr l => some l.length
  | Json.obj d => some d.length
  | _ => none

/-- Whether `float(v)` succeeds: numbers and bools convert; strings must
be decimal/infinity/NaN literals; everything else raises `TypeError`. -/
def pyFloatOk : Json → Bool
  | Json.num _ => true
  | Json.bool _ => true
  | Json.str s => GameMaster.decimalParse s ≠ GameMaster.DecParse.invalid
  | _ => false

/-- Python `v[:100]`; `none` = `TypeError` on unsliceable values (only
reached for truthy `v`). -/
def slice100 : Json → Option Json
  | Json.str s => some (Json.str (strTake s 100))
  | Json.arr l => some (Json.arr (l.take 100))
  | _ => none

/-- The `memories` snippet of the fallback reply:
`f"Context: ..."` body (main.py:155). -/
def contextSnippet (context : Json) : Option String :=
  if !pyTruthy context then some "No prior context"
  else
    match slice100 context with
    | none => none
    | some v => some (pyStr v)

/-- Extraction of `raw_text` from the model response content
(main.py:112-116); `none` models the `AttributeError` of `.get` on a
non-dict first element. -/
def rawTextOf : Json → Option Json
  | Json.arr (first :: _) =>
    match first with
    | Json.obj d => some (dGetD d "text" (Json.str ""))
    | _ => none
  | _ => some (Json.str "")

/-- The Game-Master persona test of `BrainAgent.process`
(main.py:128 and 161). -/
def gmMatch (p : JDict) : Bool :=
  jsonBeq (dGetD p "mode" Json.null) (Json.str "game_master") &&
  jsonBeq (dGetD p "name" Json.null) (Json.str "The Game Master")

/-- The `setdefault` chain adding quest metadata (main.py:129-132). -/
def addQuestDefaults (payload : JDict) : JDict :=
  let payload := dSetdefault payload "quest_title" (Json.str "The Shadowed Forest")
  let payload := dSetdefault payload "quest_setting" (Json.str "Dark Fantasy")
  let payload := dSetdefault payload "quest_tone" (Json.str "Gritty")
  dSetdefault payload "quest_difficulty" (Json.str "Moderate")

/-- The base fallback reply dict of `BrainAgent.process` (main.py:144-158),
as a function of the context snippet and the raw model text. -/
def fallback_base (snippet raw_text : String) : JDict :=
  [("sensations", Json.arr
     [Json.str "Neural pathways activating",
      Json.str "Processing sensory input",
      Json.str "Awareness fluctuating"]),
   ("thoughts", Json.arr
     [Json.str "Analyzing the question",
      Json.str "Searching for patterns",
      Json.str "Formulating response"]),
   ("memories", Json.str ("Context: " ++ snippet)),
   ("self_reflection", Json.str "I\x27m working to understand and respond meaningfully"),
   ("response", Json.str
     (if raw_text ≠ "" then raw_text
      else "I processed your message but encountered difficulty generating a structured response."))]

/-- The fallback reply construction of `BrainAgent.process`
(main.py:142-167); `none` models the `TypeError` of slicing an
unsliceable truthy context. -/
def fallbackResponse (p : JDict) (context : Json) (raw_text : String) :
    Option Json :=
  match contextSnippet context with
  | none => none
  | some snippet =>
    some (Json.obj
      (if gmMatch p then fallback_base snippet raw_text ++ quest_fields
       else fallback_base snippet raw_text))

/-- The body of `BrainAgent.process` inside its outer `try`
(main.py:75-167).  `bedrock` models the Bedrock invocation together with
the decoding of its body (`none` = the call or `json.loads` on the body
raised).  A `none` result means an exception reached the outer handler. -/
def processCore (loads : String → Option Json) (event : Json)
    (bedrock : Option Json) : Option Json :=
  match event with
  | Json.obj e =>
    let prompt := dGetD e "prompt" (Json.str "")
    let persona := dGetD e "persona" (Json.obj [])
    let context := dGetD e "context" (Json.str "")
    match persona with
    | Json.obj p =>
      match pyLen prompt with
      | none => none
      | some _ =>
        if !pyFloatOk (dGetD p "temperature" (Json.num 1)) then none
        else if !pyFloatOk (dGetD p "top_p" (Json.num 1)) then none
        else
          match bedrock with
          | none => none
          | some model_response =>
            match model_response with
            | Json.obj mr =>
              let content := dGetD mr "content" (Json.arr [])
              match rawTextOf content with
              | none => none
              | some raw_text_v =>
                match raw_text_v with
                | Json.str raw_text =>
                  match loads raw_text with
                  | some response_payload =>
                    match pyAllIn required_fields response_payload with
                    | none => none
                    | some true =>
                      if gmMatch p then
                        match response_payload with
                        | Json.obj payload => some (Json.obj (addQuestDefaults payload))
                        | _ => none
                      else some response_payload
                    | some false => fallbackResponse p context raw_text
                  | none => fallbackResponse p context raw_text
                | _ => none
            | _ => none
    | _ => none
  | _ => none

/-- `BrainAgent.process` (main.py:42-177): the outer `except` handler
converts any escaped exception into the fixed error reply. -/
def process (loads : String → Option Json) (event : Json)
    (bedrock : Option Json) : Json :=
  match processCore loads event bedrock with
  | some v => v
  | none => Json.obj runtime_error_reply

end BrainAgent

/- ------------------------------------------------------------------ -/
/- Decidable equality for the value model.                             -/
/- ------------------------------------------------------------------ -/

mutual

def jsonBeq_iff : ∀ a b : Json, jsonBeq a b = true ↔ a = b
  | Json.null, b => by cases b <;> simp [jsonBeq]
  | Json.bool a, b => by cases b <;> simp [jsonBeq]
  | Json.num a, b => by cases b <;> simp [jsonBeq]
  | Json.str a, b => by cases b <;> simp [jsonBeq]
  | Json.arr a, b => by cases b <;> simp [jsonBeq, jsonListBeq_iff a]
  | Json.obj a, b => by cases b <;> simp [jsonBeq, jsonFieldsBeq_iff a]

def jsonListBeq_iff : ∀ a b : List Json, jsonListBeq a b = true ↔ a = b
  | [], b => by cases b <;> simp [jsonListBeq]
  | a :: as, b => by
    cases b with
    | nil => simp [jsonListBeq]
    | cons b bs =>
      simp [jsonListBeq, jsonBeq_iff a b, jsonListBeq_iff as bs, Bool.and_eq_true]

def jsonFieldsBeq_iff : ∀ a b : List (String × Json), jsonFieldsBeq a b = true ↔ a = b
  | [], b => by cases b <;> simp [jsonFieldsBeq]
  | (k, v) :: as, b => by
    cases b with
    | nil => simp [jsonFieldsBeq]
    | cons kv bs =>
      obtain ⟨k2, v2⟩ := kv
      simp [jsonFieldsBeq, jsonBeq_iff v v2, jsonFieldsBeq_iff as bs, Bool.and_eq_true]

end

instance : DecidableEq Json := fun a b =>
  decidable_of_iff (jsonBeq a b = true) (jsonBeq_iff a b)

/- ================================================================== -/
/- Theorems                                                            -/
/- ================================================================== -/

theorem dContains_append_single (d : JDict) (k k2 : String) (v : Json) :
    dContains (d ++ [(k, v)]) k2 = (dContains d k2 || decide (k = k2)) := by
  induction d with
  | nil =>
    by_cases h : k = k2 <;> simp [dContains, dLookup, h]
  | cons hd tl ih =>
    obtain ⟨k3, v3⟩ := hd
    simp only [dContains, dLookup] at ih ⊢
    by_cases h : k3 = k2 <;> simp [h, ih]

theorem required_all_alias_fix (d : JDict)
    (h : ReasoningAgent.hasRequiredAliased d = true) :
    ReasoningAgent.required_keys.all
      (fun k => dContains (ReasoningAgent.alias_fix d) k) = true := by
  simp only [ReasoningAgent.hasRequiredAliased, List.all_cons, List.all_nil,
    Bool.and_true, Bool.and_eq_true, Bool.or_eq_true] at h
  obtain ⟨⟨hs, ht, hm, hr⟩, hsr⟩ := h
  unfold ReasoningAgent.alias_fix
  by_cases hc : (!dContains d "self_reflection" && dContains d "selfReflection") = true
  · rw [if_pos hc]
    rw [Bool.and_eq_true, Bool.not_eq_true'] at hc
    obtain ⟨hno, _⟩ := hc
    rw [dSet, hno]
    simp [ReasoningAgent.required_keys, dContains_append_single, hs, ht, hm, hr]
  · rw [if_neg hc]
    rw [Bool.and_eq_true, Bool.not_eq_true'] at hc
    push_neg at hc
    have hself : dContains d "self_reflection" = true := by
      cases hcontains : dContains d "self_reflection" with
      | true => rfl
      | false =>
        cases hsr with
        | inl h1 => exact absurd h1 (by simp [hcontains])
        | inr h2 => exact absurd h2 (by simp [hc hcontains])
    simp [ReasoningAgent.required_keys, hs, ht, hm, hr, hself]

theorem normalize_payload_of_required (d : JDict)
    (h : ReasoningAgent.hasRequiredAliased d = true) :
    ReasoningAgent.normalize_payload (Json.obj d) =
      some (ReasoningAgent.alias_fix d) := by
  simp only [ReasoningAgent.normalize_payload]
  rw [required_all_alias_fix d h]
  simp

theorem normalize_payload_keys (v : Json) (n : JDict)
    (h : ReasoningAgent.normalize_payload v = some n) :
    ReasoningAgent.required_keys.all (fun k => dContains n k) = true := by
  match v with
  | Json.null => exact absurd h (by simp [ReasoningAgent.normalize_payload])
  | Json.bool _ => exact absurd h (by simp [ReasoningAgent.normalize_payload])
  | Json.num _ => exact absurd h (by simp [ReasoningAgent.normalize_payload])
  | Json.str _ => exact absurd h (by simp [ReasoningAgent.normalize_payload])
  | Json.arr _ => exact absurd h (by simp [ReasoningAgent.normalize_payload])
  | Json.obj d =>
    simp only [ReasoningAgent.normalize_payload] at h
    split at h
    · obtain rfl := Option.some.inj h
      assumption
    · exact absurd h (by simp)

theorem parse_json_text_keys (loads : String → Option Json) (t : Option Json)
    (n : JDict) (h : ReasoningAgent.parse_json_text loads t = some n) :
    ReasoningAgent.required_keys.all (fun k => dContains n k) = true := by
  match t with
  | none => exact absurd h (by simp [ReasoningAgent.parse_json_text])
  | some (Json.str s) =>
    simp only [ReasoningAgent.parse_json_text] at h
    split at h
    · exact absurd h (by simp)
    · match hl : loads (ReasoningAgent.strip_markdown_fences s) with
      | none => rw [hl] at h; exact absurd h (by simp)
      | some parsed => rw [hl] at h; exact normalize_payload_keys parsed n h
  | some Json.null | some (Json.bool _) | some (Json.num _)
  | some (Json.arr _) | some (Json.obj _) =>
    exact absurd h (by simp [ReasoningAgent.parse_json_text])

theorem error_reply_keys :
    ReasoningAgent.required_keys.all
      (fun k => dContains ReasoningAgent.error_reply k) = true := by decide

theorem parse_fallback_keys (loads : String → Option Json) (r : Raw) :
    ReasoningAgent.required_keys.all
      (fun k => dContains (ReasoningAgent.parse_fallback loads r) k) = true := by
  match r with
  | Raw.dict _ | Raw.other =>
    simpa [ReasoningAgent.parse_fallback] using error_reply_keys
  | Raw.str s =>
    simp only [ReasoningAgent.parse_fallback]
    cases hl : loads s with
    | none => simpa [hl] using error_reply_keys
    | some parsed =>
      cases hn : ReasoningAgent.normalize_payload parsed with
      | none => simpa [hl, hn] using error_reply_keys
      | some normalized =>
        simpa [hl, hn] using normalize_payload_keys parsed normalized hn

/-- C1 counterexample: on a complete payload carrying the alias key, the
normalizer appends the canonical `self_reflection` key but keeps the alias
key `selfReflection` in the returned object, whereas renaming the alias
(the behaviour the claim states) would remove it; so the output is not the
input with the alias merely renamed. -/
theorem analyze_input_keeps_alias_counterexample :
    ReasoningAgent.analyze_input (fun _ => none)
        (Raw.dict [("sensations", Json.arr [Json.str "a"]),
                   ("thoughts", Json.arr [Json.str "b"]),
                   ("memories", Json.str "m"),
                   ("selfReflection", Json.str "s"),
                   ("response", Json.str "r")]) =
      [("sensations", Json.arr [Json.str "a"]),
       ("thoughts", Json.arr [Json.str "b"]),
       ("memories", Json.str "m"),
       ("selfReflection", Json.str "s"),
       ("response", Json.str "r"),
       ("self_reflection", Json.str "s")] ∧
    dContains (ReasoningAgent.analyze_input (fun _ => none)
        (Raw.dict [("sensations", Json.arr [Json.str "a"]),
                   ("thoughts", Json.arr [Json.str "b"]),
                   ("memories", Json.str "m"),
                   ("selfReflection", Json.str "s"),
                   ("response", Json.str "r")])) "selfReflection" = true ∧
    dContains (ReasoningAgent.rename_alias_claim
        [("sensations", Json.arr [Json.str "a"]),
         ("thoughts", Json.arr [Json.str "b"]),
         ("memories", Json.str "m"),
         ("selfReflection", Json.str "s"),
         ("response", Json.str "r")]) "selfReflection" = false := by
  refine ⟨by decide, by decide, by decide⟩

/-- C1 (amended): for every raw output that is a complete payload — a dict,
or a (possibly code-fenced) string whose fence-stripped text decodes to a
JSON object with the five required fields, the self-reflection one possibly
under the alias key — `analyze_input` returns that object unchanged except
that, when `self_reflection` is absent and `selfReflection` present, the
canonical key is appended with the alias value; the alias key is retained
and every other key and value is preserved (this is exactly `alias_fix`). -/
theorem analyze_input_complete_payload_aliasing :
    (∀ (loads : String → Option Json) (d : JDict),
        ReasoningAgent.hasRequiredAliased d = true →
        ReasoningAgent.analyze_input loads (Raw.dict d) =
          ReasoningAgent.alias_fix d) ∧
    (∀ (loads : String → Option Json) (s : String) (d : JDict),
        pyStrip s ≠ "" →
        loads (ReasoningAgent.strip_markdown_fences s) = some (Json.obj d) →
        ReasoningAgent.hasRequiredAliased d = true →
        ReasoningAgent.analyze_input loads (Raw.str s) =
          ReasoningAgent.alias_fix d) := by
  constructor
  · intro loads d h
    simp [ReasoningAgent.analyze_input, normalize_payload_of_required d h]
  · intro loads s d hs hl h
    simp [ReasoningAgent.analyze_input, ReasoningAgent.parse_json_text, hs, hl,
      normalize_payload_of_required d h]

/-- Witness for C1 (amended): a concrete dict payload and a concrete
code-fenced JSON string, both with the alias key (the fenced string is the
spec example from section 8). -/
theorem analyze_input_complete_payload_aliasing_witness :
    ReasoningAgent.hasRequiredAliased
      [("sensations", Json.arr [Json.str "a"]), ("thoughts", Json.arr [Json.str "b"]),
       ("memories", Json.str "m"), ("selfReflection", Json.str "s"),
       ("response", Json.str "r")] = true ∧
    ReasoningAgent.analyze_input (fun _ => none)
      (Raw.dict [("sensations", Json.arr [Json.str "a"]), ("thoughts", Json.arr [Json.str "b"]),
                 ("memories", Json.str "m"), ("selfReflection", Json.str "s"),
                 ("response", Json.str "r")]) =
      ReasoningAgent.alias_fix
        [("sensations", Json.arr [Json.str "a"]), ("thoughts", Json.arr [Json.str "b"]),
         ("memories", Json.str "m"), ("selfReflection", Json.str "s"),
         ("response", Json.str "r")] ∧
    pyStrip "\x60\x60\x60json\n\x7b\"sensations\": [\"a\"], \"thoughts\": [\"b\"], \"memories\": \"m\", \"selfReflection\": \"s\", \"response\": \"r\"\x7d\n\x60\x60\x60" ≠ "" ∧
    ReasoningAgent.analyze_input
      (fun t =>
        if t = "\x7b\"sensations\": [\"a\"], \"thoughts\": [\"b\"], \"memories\": \"m\", \"selfReflection\": \"s\", \"response\": \"r\"\x7d"
        then some (Json.obj
          [("sensations", Json.arr [Json.str "a"]), ("thoughts", Json.arr [Json.str "b"]),
           ("memories", Json.str "m"), ("selfReflection", Json.str "s"),
           ("response", Json.str "r")])
        else none)
      (Raw.str "\x60\x60\x60json\n\x7b\"sensations\": [\"a\"], \"thoughts\": [\"b\"], \"memories\": \"m\", \"selfReflection\": \"s\", \"response\": \"r\"\x7d\n\x60\x60\x60") =
      ReasoningAgent.alias_fix
        [("sensations", Json.arr [Json.str "a"]), ("thoughts", Json.arr [Json.str "b"]),
         ("memories", Json.str "m"), ("selfReflection", Json.str "s"),
         ("response", Json.str "r")] := by
  refine ⟨by decide, analyze_input_complete_payload_aliasing.1 _ _ (by decide),
    by decide, analyze_input_complete_payload_aliasing.2 _ _ _ (by decide) (by decide) (by decide)⟩

/-- C2: for every string input such that JSON decoding fails both on the
fence-stripped text and on the raw text (which is what holds for every
plain non-JSON text), `analyze_input` returns the sentinel error reply;
the definition is total, reflecting that no exception escapes. -/
theorem analyze_input_plain_text_sentinel
    (loads : String → Option Json) (s : String)
    (h1 : loads (ReasoningAgent.strip_markdown_fences s) = none)
    (h2 : loads s = none) :
    ReasoningAgent.analyze_input loads (Raw.str s) =
      ReasoningAgent.error_reply := by
  simp only [ReasoningAgent.analyze_input, ReasoningAgent.parse_json_text]
  by_cases hs : pyStrip s = "" <;>
    simp [hs, h1, ReasoningAgent.parse_fallback, h2]

/-- Witness for C2: the plain text `"hello"` with the everywhere-failing
decoder (Python raises `json.JSONDecodeError` on both `"hello"` and its
fence-stripped form, which is `"hello"` itself). -/
theorem analyze_input_plain_text_sentinel_witness :
    (fun _ : String => (none : Option Json)) (ReasoningAgent.strip_markdown_fences "hello") = none ∧
    (fun _ : String => (none : Option Json)) "hello" = none ∧
    ReasoningAgent.analyze_input (fun _ => none) (Raw.str "hello") =
      ReasoningAgent.error_reply :=
  ⟨rfl, rfl, analyze_input_plain_text_sentinel (fun _ => none) "hello" rfl rfl⟩

/-- C3: the current normalizer
(src/amplify/functions/brain/src/agents/reasoning_agent.py) returns a dict
containing all five base fields on every input and control path; but the
claim also covers the legacy normalizer (src/agents/reasoning_agent.py),
which on the JSON text carrying only the four checked fields returns the
parsed dict without `response` (and whose exception handler likewise
returns a four-field dict), refuting the five-field invariant there. -/
theorem analyze_input_five_fields_invariant_and_legacy_gap :
    (∀ (loads : String → Option Json) (r : Raw),
        ReasoningAgent.required_keys.all
          (fun k => dContains (ReasoningAgent.analyze_input loads r) k) = true) ∧
    (LegacyReasoningAgent.analyze_input
        (fun t =>
          if t = "\x7b\"sensations\": [], \"thoughts\": [], \"memories\": \"m\", \"self_reflection\": \"r\"\x7d"
          then some (Json.obj
            [("sensations", Json.arr []), ("thoughts", Json.arr []),
             ("memories", Json.str "m"), ("self_reflection", Json.str "r")])
          else none)
        (fun _ => none)
        (Raw.str "\x7b\"sensations\": [], \"thoughts\": [], \"memories\": \"m\", \"self_reflection\": \"r\"\x7d") =
      Json.obj [("sensations", Json.arr []), ("thoughts", Json.arr []),
                ("memories", Json.str "m"), ("self_reflection", Json.str "r")] ∧
     dContains [("sensations", Json.arr []), ("thoughts", Json.arr []),
                ("memories", Json.str "m"), ("self_reflection", Json.str "r")]
       "response" = false) := by
  refine ⟨?_, by decide, by decide⟩
  intro loads r
  cases r with
  | dict d =>
    simp only [ReasoningAgent.analyze_input]
    cases hn : ReasoningAgent.normalize_payload (Json.obj d) with
    | some n => simpa using normalize_payload_keys _ _ hn
    | none =>
      cases hp : ReasoningAgent.parse_json_text loads (dLookup d "response") with
      | some n => simpa using parse_json_text_keys _ _ _ hp
      | none => simpa using parse_fallback_keys loads (Raw.dict d)
  | str s =>
    simp only [ReasoningAgent.analyze_input]
    cases hp : ReasoningAgent.parse_json_text loads (some (Json.str s)) with
    | some n => simpa using parse_json_text_keys _ _ _ hp
    | none => simpa using parse_fallback_keys loads (Raw.str s)
  | other =>
    simpa [ReasoningAgent.analyze_input] using parse_fallback_keys loads Raw.other

/-- C5: the sentinel error reply is returned by `enhance_response`
unchanged, for every randomness seed: its stringified form contains the
indicator `"error"`, so `_is_error_response` detects it and the
enhancement (and the philosophical framing sentence) is skipped. -/
theorem enhance_response_sentinel_unchanged (seed : List Nat) :
    DepthAgent.enhance_response seed ReasoningAgent.error_reply =
      some ReasoningAgent.error_reply := by
  have h : DepthAgent.is_error_response ReasoningAgent.error_reply = true := by decide
  simp [DepthAgent.enhance_response, h]

/-- C10: `enhance_response` returns its input unchanged (and raises
nothing) whenever the substring `"error"` occurs case-insensitively in
the stringified reply — not only for the sentinel reply. -/
theorem enhance_response_skips_any_error_mention (seed : List Nat) (reply : JDict)
    (h : isSubstr "error" (strLower (pyReprJ (Json.obj reply))) = true) :
    DepthAgent.enhance_response seed reply = some reply := by
  have herr : DepthAgent.is_error_response reply = true := by
    unfold DepthAgent.is_error_response
    have hany : DepthAgent.error_indicators.any
        (fun i => isSubstr i (strLower (pyReprJ (Json.obj reply)))) = true := by
      rw [List.any_eq_true]
      exact ⟨"error", by decide, h⟩
    simp [hany]
  simp [DepthAgent.enhance_response, herr]

/-- Witness for C10: a genuine, non-sentinel reply whose response text
merely mentions the word `"Error"` is returned without enhancement. -/
theorem enhance_response_skips_any_error_mention_witness :
    isSubstr "error" (strLower (pyReprJ (Json.obj
      [("sensations", Json.arr [Json.str "calm hum"]),
       ("thoughts", Json.arr [Json.str "a clear mind"]),
       ("memories", Json.str "the last question"),
       ("self_reflection", Json.str "focused"),
       ("response", Json.str "The server returned an Error yesterday.")]))) = true ∧
    DepthAgent.enhance_response [0, 1, 2, 3]
      [("sensations", Json.arr [Json.str "calm hum"]),
       ("thoughts", Json.arr [Json.str "a clear mind"]),
       ("memories", Json.str "the last question"),
       ("self_reflection", Json.str "focused"),
       ("response", Json.str "The server returned an Error yesterday.")] =
      some [("sensations", Json.arr [Json.str "calm hum"]),
            ("thoughts", Json.arr [Json.str "a clear mind"]),
            ("memories", Json.str "the last question"),
            ("self_reflection", Json.str "focused"),
            ("response", Json.str "The server returned an Error yesterday.")] :=
  ⟨by decide, enhance_response_skips_any_error_mention [0, 1, 2, 3] _ (by decide)⟩

/-- The field-detection result on the concrete user input of claim C4:
only the name field is requested. -/
theorem requested_fields_whats_my_name :
    GameMaster.requested_character_fields "what\x27s my name?" =
      ⟨true, false, false, false, false, false, false, false⟩ := by decide

/-- C4: in game-master mode, for character data whose `name` is `"Aldric"`
(and whose inventory formats without an exception, which holds for every
real character sheet), `postprocess_response` on the user input
the name question of the spec example replaces the reply `response` field with exactly
`"Your name is Aldric. What do you do next?"`, whatever the model reply
was. -/
theorem postprocess_overrides_name_answer (resp : JDict) (character : JDict)
    (hname : dLookup character "name" = some (Json.str "Aldric"))
    (hinv : (GameMaster.inventory_descriptions
        (dGetD character "inventory" (Json.arr []))).isSome = true) :
    GameMaster.postprocess_response (some character) "what\x27s my name?"
        (Json.obj resp) =
      some (Json.obj (dSet resp "response"
        (Json.str "Your name is Aldric. What do you do next?"))) := by
  obtain ⟨items, hitems⟩ := Option.isSome_iff_exists.mp hinv
  have hempty : character.isEmpty = false := by
    cases character with
    | nil => simp [dLookup] at hname
    | cons hd tl => rfl
  simp only [GameMaster.postprocess_response, GameMaster.enforce_character_recall,
    hempty, Bool.false_eq_true, if_false, requested_fields_whats_my_name]
  rw [if_neg (by decide : ¬(⟨true, false, false, false, false, false, false, false⟩ :
    GameMaster.ReqFields) = GameMaster.noFields)]
  simp only [GameMaster.build_character_fact_response, hitems]
  simp [dGetD, hname, pyStr]
  rfl

/-- Witness for C4: the spec section-8 character sheet
(`name = "Aldric"`, `level = 3`) and a model reply the handler discards. -/
theorem postprocess_overrides_name_answer_witness :
    dLookup [("name", Json.str "Aldric"), ("level", Json.num 3)] "name" =
      some (Json.str "Aldric") ∧
    (GameMaster.inventory_descriptions
      (dGetD [("name", Json.str "Aldric"), ("level", Json.num 3)] "inventory"
        (Json.arr []))).isSome = true ∧
    GameMaster.postprocess_response
        (some [("name", Json.str "Aldric"), ("level", Json.num 3)])
        "what\x27s my name?"
        (Json.obj [("sensations", Json.arr []),
                   ("response", Json.str "You are called Bob, adventurer!")]) =
      some (Json.obj (dSet
        [("sensations", Json.arr []),
         ("response", Json.str "You are called Bob, adventurer!")]
        "response" (Json.str "Your name is Aldric. What do you do next?"))) :=
  ⟨rfl, by decide, postprocess_overrides_name_answer _ _ rfl (by decide)⟩

/-- C7: whenever the (reassembled, stripped) response body is non-empty
and JSON decoding of it fails, `_decode_response` raises nothing and
returns the dict `{"response": <that text>}`. -/
theorem decode_response_wraps_non_json (loads : String → Option Json)
    (content_type bytes raw_text : String)
    (hct : content_type ≠ "")
    (hraw : raw_text = pyStrip (if isSubstr "text/event-stream" content_type
        then AgentCoreClient.strip_sse_prefixes bytes else bytes))
    (hne : raw_text ≠ "")
    (hl : loads raw_text = none) :
    AgentCoreClient.decode_response loads (Json.str content_type) (some bytes) =
      some (Json.obj [("response", Json.str raw_text)]) := by
  subst hraw
  simp [AgentCoreClient.decode_response, pyTruthy, hct, hne, hl]

/-- Witness for C7: a plain-text body under a JSON content type. -/
theorem decode_response_wraps_non_json_witness :
    ("application/json" : String) ≠ "" ∧
    ("hello" : String) = pyStrip (if isSubstr "text/event-stream" "application/json"
        then AgentCoreClient.strip_sse_prefixes " hello " else " hello ") ∧
    ("hello" : String) ≠ "" ∧
    (fun _ : String => (none : Option Json)) "hello" = none ∧
    AgentCoreClient.decode_response (fun _ => none)
        (Json.str "application/json") (some " hello ") =
      some (Json.obj [("response", Json.str "hello")]) :=
  ⟨by decide, by decide, by decide, rfl,
    decode_response_wraps_non_json (fun _ => none) "application/json" " hello " "hello"
      (by decide) (by decide) (by decide) rfl⟩

/-- C8 counterexample: an event-stream body with no `"data: "` line is
returned whole by `_strip_sse_prefixes` (and hence wrapped whole by
`_decode_response`), whereas the claimed reassembly — keeping exactly the
data-line payloads — would produce the empty string. -/
theorem strip_sse_no_data_counterexample :
    AgentCoreClient.strip_sse_prefixes "event: ping" = "event: ping" ∧
    AgentCoreClient.sse_reassemble_claim "event: ping" = "" ∧
    AgentCoreClient.decode_response (fun _ => none)
        (Json.str "text/event-stream") (some "event: ping") =
      some (Json.obj [("response", Json.str "event: ping")]) :=
  ⟨by decide, by decide, by decide⟩

/-- C8 (amended): when at least one line of the event-stream body starts
with `"data: "`, the reassembly concatenates, in order, exactly the
payloads of those lines, discarding all other framing lines; when no line
does, the body is returned unchanged (see the counterexample). -/
theorem strip_sse_concatenates_data_lines (raw_text : String)
    (h : (pySplitlines raw_text).any (fun l => strStartsWith l "data: ") = true) :
    AgentCoreClient.strip_sse_prefixes raw_text =
      AgentCoreClient.sse_reassemble_claim raw_text := by
  obtain ⟨l, hmem, hpre⟩ := List.any_eq_true.mp h
  simp only [AgentCoreClient.strip_sse_prefixes, AgentCoreClient.sse_reassemble_claim]
  have hne : ((pySplitlines raw_text).filterMap
      (fun line => if strStartsWith line "data: " then some (strDrop line 6) else none)) ≠ [] := by
    rw [Ne, List.filterMap_eq_nil_iff]
    push_neg
    exact ⟨l, hmem, by simp [hpre]⟩
  rw [if_neg (by simpa [List.isEmpty_iff] using hne)]

/-- Witness for C8 (amended): one data line among framing lines. -/
theorem strip_sse_concatenates_data_lines_witness :
    (pySplitlines "event: x\ndata: hi\n\ndata: there").any
      (fun l => strStartsWith l "data: ") = true ∧
    AgentCoreClient.strip_sse_prefixes "event: x\ndata: hi\n\ndata: there" =
      AgentCoreClient.sse_reassemble_claim "event: x\ndata: hi\n\ndata: there" ∧
    AgentCoreClient.sse_reassemble_claim "event: x\ndata: hi\n\ndata: there" = "hithere" :=
  ⟨by decide, strip_sse_concatenates_data_lines _ (by decide), by decide⟩

/-- C9: every personality-mode key other than the two defined personas
selects the `"default"` persona: `setup_prompt_template` returns the same
template text and persona config as for `"default"`, and it is total
(never an error). -/
theorem setup_prompt_template_unknown_mode (mode : String)
    (h1 : mode ≠ "default") (h2 : mode ≠ "game_master") :
    Config.setup_prompt_template mode = Config.setup_prompt_template "default" := by
  simp [Config.setup_prompt_template, Config.personaLookup, Config.PERSONA_DEFINITIONS,
    Ne.symm h1, Ne.symm h2]

/-- Witness for C9: the undefined mode `"narrative"` falls back to the
default persona. -/
theorem setup_prompt_template_unknown_mode_witness :
    ("narrative" : String) ≠ "default" ∧
    ("narrative" : String) ≠ "game_master" ∧
    Config.setup_prompt_template "narrative" = Config.setup_prompt_template "default" :=
  ⟨by decide, by decide,
    setup_prompt_template_unknown_mode "narrative" (by decide) (by decide)⟩

theorem quest_not_in_sentinel (qk : String) (hq : qk ∈ BrainAgent.quest_keys) :
    pyIn qk (Json.obj BrainAgent.runtime_error_reply) = some false := by
  fin_cases hq <;> decide

theorem quest_not_in_fallback_base (qk : String) (hq : qk ∈ BrainAgent.quest_keys)
    (snip raw : String) :
    pyIn qk (Json.obj (BrainAgent.fallback_base snip raw)) = some false := by
  fin_cases hq <;> simp [pyIn, BrainAgent.fallback_base, dContains, dLookup]

/-- For an event whose persona does not match the Game Master pair, every
run of `process` ends in the fallback reply, in the model payload itself,
or in the sentinel reply. -/
theorem process_mismatch_shape (loads : String → Option Json) (event : Json)
    (bedrock : Option Json)
    (hgm : ∀ (e p : JDict), event = Json.obj e →
        dGetD e "persona" (Json.obj []) = Json.obj p → BrainAgent.gmMatch p = false) :
    (∃ snip raw, BrainAgent.process loads event bedrock =
        Json.obj (BrainAgent.fallback_base snip raw)) ∨
    (∃ s payload, loads s = some payload ∧
        BrainAgent.process loads event bedrock = payload) ∨
    BrainAgent.process loads event bedrock = Json.obj BrainAgent.runtime_error_reply := by
  cases event with
  | null => right; right; rfl
  | bool b => right; right; rfl
  | num n => right; right; rfl
  | str s => right; right; rfl
  | arr l => right; right; rfl
  | obj e =>
    simp only [BrainAgent.process, BrainAgent.processCore]
    cases hp : dGetD e "persona" (Json.obj []) with
    | null => right; right; rfl
    | bool b => right; right; rfl
    | num n => right; right; rfl
    | str s => right; right; rfl
    | arr l => right; right; rfl
    | obj p =>
      have hgm2 := hgm e p rfl hp
      dsimp only
      cases hlen : BrainAgent.pyLen (dGetD e "prompt" (Json.str "")) with
      | none => right; right; rfl
      | some n =>
        dsimp only
        cases hft : BrainAgent.pyFloatOk (dGetD p "temperature" (Json.num 1)) with
        | false => right; right; rfl
        | true =>
          cases hfp : BrainAgent.pyFloatOk (dGetD p "top_p" (Json.num 1)) with
          | false => right; right; rfl
          | true =>
            simp only [Bool.not_true, Bool.false_eq_true, if_false]
            cases bedrock with
            | none => right; right; rfl
            | some model_response =>
              dsimp only
              cases model_response with
              | obj mr =>
                dsimp only
                cases hrt : BrainAgent.rawTextOf (dGetD mr "content" (Json.arr [])) with
                | none => right; right; rfl
                | some raw_text_v =>
                  dsimp only
                  cases raw_text_v with
                  | str raw_text =>
                    dsimp only
                    cases hld : loads raw_text with
                    | none =>
                      dsimp only [BrainAgent.fallbackResponse]
                      cases hcs : BrainAgent.contextSnippet (dGetD e "context" (Json.str "")) with
                      | none => right; right; rfl
                      | some snip =>
                        dsimp only
                        rw [hgm2]
                        left
                        exact ⟨snip, raw_text, by simp⟩
                    | some response_payload =>
                      dsimp only
                      cases hall : pyAllIn BrainAgent.required_fields response_payload with
                      | none => right; right; rfl
                      | some b =>
                        cases b with
                        | true =>
                          dsimp only
                          rw [hgm2]
                          right; left
                          exact ⟨raw_text, response_payload, hld, by simp⟩
                        | false =>
                          dsimp only [BrainAgent.fallbackResponse]
                          cases hcs : BrainAgent.contextSnippet (dGetD e "context" (Json.str "")) with
                          | none => right; right; rfl
                          | some snip =>
                            dsimp only
                            rw [hgm2]
                            left
                            exact ⟨snip, raw_text, by simp⟩
                  | null => right; right; rfl
                  | bool b2 => right; right; rfl
                  | num n2 => right; right; rfl
                  | arr l2 => right; right; rfl
                  | obj o2 => right; right; rfl
              | null => right; right; rfl
              | bool b2 => right; right; rfl
              | num n2 => right; right; rfl
              | str s2 => right; right; rfl
              | arr l2 => right; right; rfl

/-- C6 counterexample: with persona mode `"default"` and name `"Brain"`
(not the Game Master pair), a valid model payload that itself carries a
`quest_title` key is returned verbatim, so the returned reply contains a
quest field for a non-Game-Master event. -/
theorem process_quest_passthrough_counterexample :
    BrainAgent.process
      (fun t =>
        if t = "\x7b\"sensations\": [], \"thoughts\": [], \"memories\": \"m\", \"self_reflection\": \"s\", \"response\": \"ok\", \"quest_title\": \"The Crystal Caves\"\x7d"
        then some (Json.obj
          [("sensations", Json.arr []), ("thoughts", Json.arr []),
           ("memories", Json.str "m"), ("self_reflection", Json.str "s"),
           ("response", Json.str "ok"), ("quest_title", Json.str "The Crystal Caves")])
        else none)
      (Json.obj [("persona", Json.obj
        [("mode", Json.str "default"), ("name", Json.str "Brain")])])
      (some (Json.obj [("content", Json.arr [Json.obj [("text", Json.str
        "\x7b\"sensations\": [], \"thoughts\": [], \"memories\": \"m\", \"self_reflection\": \"s\", \"response\": \"ok\", \"quest_title\": \"The Crystal Caves\"\x7d")]])])) =
      Json.obj
        [("sensations", Json.arr []), ("thoughts", Json.arr []),
         ("memories", Json.str "m"), ("self_reflection", Json.str "s"),
         ("response", Json.str "ok"), ("quest_title", Json.str "The Crystal Caves")] ∧
    pyIn "quest_title" (Json.obj
        [("sensations", Json.arr []), ("thoughts", Json.arr []),
         ("memories", Json.str "m"), ("self_reflection", Json.str "s"),
         ("response", Json.str "ok"), ("quest_title", Json.str "The Crystal Caves")]) =
      some true ∧
    BrainAgent.gmMatch [("mode", Json.str "default"), ("name", Json.str "Brain")] = false :=
  ⟨by decide, by decide, by decide⟩

/-- C6 (amended): for every event whose persona is not the Game Master
pair, `process` adds no quest metadata itself — any quest key contained in
the returned reply was already contained in the decoded model payload,
which is passed through verbatim. -/
theorem process_no_quest_added_for_other_personas
    (loads : String → Option Json) (event : Json) (bedrock : Option Json)
    (qk : String) (hq : qk ∈ BrainAgent.quest_keys)
    (hgm : ∀ (e p : JDict), event = Json.obj e →
        dGetD e "persona" (Json.obj []) = Json.obj p → BrainAgent.gmMatch p = false)
    (hfound : pyIn qk (BrainAgent.process loads event bedrock) = some true) :
    ∃ (s : String) (payload : Json), loads s = some payload ∧
      pyIn qk payload = some true ∧
      BrainAgent.process loads event bedrock = payload := by
  rcases process_mismatch_shape loads event bedrock hgm with
    ⟨snip, raw, hcase⟩ | ⟨s, payload, hl, hcase⟩ | hcase
  · rw [hcase, quest_not_in_fallback_base qk hq snip raw] at hfound
    simp at hfound
  · exact ⟨s, payload, hl, by rw [hcase] at hfound; exact hfound, hcase⟩
  · rw [hcase, quest_not_in_sentinel qk hq] at hfound
    simp at hfound

/-- Witness for C6 (amended): the non-Game-Master event and
quest-carrying model payload of the counterexample setting. -/
theorem process_no_quest_added_for_other_personas_witness :
    ("quest_title" ∈ BrainAgent.quest_keys) ∧
    (∀ (e p : JDict),
        (Json.obj [("persona", Json.obj
          [("mode", Json.str "north"), ("name", Json.str "Pilot")])]) = Json.obj e →
        dGetD e "persona" (Json.obj []) = Json.obj p →
        BrainAgent.gmMatch p = false) ∧
    pyIn "quest_title" (BrainAgent.process
      (fun t =>
        if t = "\x7b\"sensations\": [\"s\"], \"thoughts\": [\"t\"], \"memories\": \"m\", \"self_reflection\": \"s\", \"response\": \"ok\", \"quest_title\": \"Found\"\x7d"
        then some (Json.obj
          [("sensations", Json.arr [Json.str "s"]), ("thoughts", Json.arr [Json.str "t"]),
           ("memories", Json.str "m"), ("self_reflection", Json.str "s"),
           ("response", Json.str "ok"), ("quest_title", Json.str "Found")])
        else none)
      (Json.obj [("persona", Json.obj
        [("mode", Json.str "north"), ("name", Json.str "Pilot")])])
      (some (Json.obj [("content", Json.arr [Json.obj [("text", Json.str
        "\x7b\"sensations\": [\"s\"], \"thoughts\": [\"t\"], \"memories\": \"m\", \"self_reflection\": \"s\", \"response\": \"ok\", \"quest_title\": \"Found\"\x7d")]])]))) =
      some true ∧
    (∃ (s : String) (payload : Json),
      (fun t =>
        if t = "\x7b\"sensations\": [\"s\"], \"thoughts\": [\"t\"], \"memories\": \"m\", \"self_reflection\": \"s\", \"response\": \"ok\", \"quest_title\": \"Found\"\x7d"
        then some (Json.obj
          [("sensations", Json.arr [Json.str "s"]), ("thoughts", Json.arr [Json.str "t"]),
           ("memories", Json.str "m"), ("self_reflection", Json.str "s"),
           ("response", Json.str "ok"), ("quest_title", Json.str "Found")])
        else none) s = some payload ∧
      pyIn "quest_title" payload = some true ∧
      BrainAgent.process
        (fun t =>
          if t = "\x7b\"sensations\": [\"s\"], \"thoughts\": [\"t\"], \"memories\": \"m\", \"self_reflection\": \"s\", \"response\": \"ok\", \"quest_title\": \"Found\"\x7d"
          then some (Json.obj
            [("sensations", Json.arr [Json.str "s"]), ("thoughts", Json.arr [Json.str "t"]),
             ("memories", Json.str "m"), ("self_reflection", Json.str "s"),
             ("response", Json.str "ok"), ("quest_title", Json.str "Found")])
          else none)
        (Json.obj [("persona", Json.obj
          [("mode", Json.str "north"), ("name", Json.str "Pilot")])])
        (some (Json.obj [("content", Json.arr [Json.obj [("text", Json.str
          "\x7b\"sensations\": [\"s\"], \"thoughts\": [\"t\"], \"memories\": \"m\", \"self_reflection\": \"s\", \"response\": \"ok\", \"quest_title\": \"Found\"\x7d")]])])) = payload) := by
  refine ⟨by decide, ?_, by decide, ?_⟩
  · intro e p he hp
    injection he with he2
    subst he2
    simp only [dGetD, dLookup] at hp
    injection hp with hp2
    subst hp2
    decide
  · exact process_no_quest_added_for_other_personas _ _ _ "quest_title" (by decide)
      (by intro e p he hp
          injection he with he2
          subst he2
          simp only [dGetD, dLookup] at hp
          injection hp with hp2
          subst hp2
          decide)
      (by decide)
